import Mathlib

/-!
Shallow embedding of the Eco-trace disposal-due cascade engine.

The data model follows final_project_schema.sql: one structure per table
row, a `DB` record holding the table contents, and a `nextId` counter
standing in for uuid generation.  The PL/pgSQL trigger functions
(create_business_disposal_due, create_retailer_disposal_due,
create_company_disposal_due, create_consumer_disposal_due_on_purchase)
are embedded as pure state transformers; the TypeScript client
operations (payConsumerDisposalDue, createRetailerCompanyDisposalDue,
updateOverdueDues, updateInventoryAfterTransaction, ...) are embedded on
top of them, firing the row-level triggers exactly where Postgres would.
Opaque text columns (names, emails, locations) are modelled as numeric
codes; NUMERIC amounts as Int; dates as day counts (Int); CURRENT_DATE
is passed explicitly as `today`.  A supabase call that can fail at the
store is modelled with an explicit failure flag or an Except result.
-/

namespace EcoTrace

/-- Status of a disposal due row. -/
inductive DueStatus
  | pending
  | paid
  | overdue
deriving DecidableEq

/-- Status of a retailer inventory item. -/
inductive ItemStatus
  | available
  | out_of_stock
  | discontinued
deriving DecidableEq

/-- source_type column of retailer_disposal_dues. -/
inductive RetailerSourceType
  | business_chain
  | company_purchase
deriving DecidableEq

/-- source_type column of company_disposal_dues. -/
inductive CompanySourceType
  | retailer_chain
  | direct_purchase
deriving DecidableEq

/-- transaction_type of inventory_transactions; the source value "return"
is a Lean keyword, so it is modelled by the constructor `ret`. -/
inductive TransactionType
  | purchase
  | ret
  | adjustment
deriving DecidableEq

/-- Row of the transactions (consumer purchases) table. -/
structure Transaction where
  id : Nat
  user_id : Nat
  inventory_id : Nat
  cost_paid : Int
  plastic_disposal_fee : Int
deriving DecidableEq

/-- Row of the business_transactions table. -/
structure BusinessTransaction where
  id : Nat
  business_id : Nat
  inventory_id : Nat
deriving DecidableEq

/-- Row of the inventory_transactions table. -/
structure InventoryTransaction where
  id : Nat
  inventory_id : Nat
  business_id : Nat
  quantity : Int
  transaction_type : TransactionType
  unit_price : Int
  total_amount : Int
  plastic_quantity_purchased : Int
  plastic_disposal_cost : Int
deriving DecidableEq

/-- Row of the retailer_inventory table. -/
structure RetailerInventory where
  id : Nat
  company_product_id : Option Nat
  retailer_id : Nat
  quantity : Int
  unit_price : Int
  status : ItemStatus
  plastic_quantity_grams : Int
  plastic_cost_per_gram : Int
  total_plastic_cost : Int
  updated_at : Int
deriving DecidableEq

/-- Row of the company_products table. -/
structure CompanyProduct where
  id : Nat
  company_id : Nat
  retailer_id : Nat
  disposal_cost : Int
deriving DecidableEq

/-- Row of the retailers table (text columns as numeric codes). -/
structure Retailer where
  id : Nat
  user_id : Nat
  name : Nat
  registered_businesses : List Nat
  email : Nat
  location : Nat
deriving DecidableEq

/-- Row of the businesses table. -/
structure Business where
  id : Nat
  owner_id : Nat
deriving DecidableEq

/-- Row of the consumer_disposal_dues table. -/
structure ConsumerDisposalDue where
  id : Nat
  consumer_id : Nat
  transaction_id : Nat
  amount : Int
  due_date : Int
  status : DueStatus
deriving DecidableEq

/-- Row of the business_disposal_dues table. -/
structure BusinessDisposalDue where
  id : Nat
  business_id : Nat
  consumer_disposal_due_id : Option Nat
  amount : Int
  due_date : Int
  status : DueStatus
deriving DecidableEq

/-- Row of the retailer_disposal_dues table. -/
structure RetailerDisposalDue where
  id : Nat
  retailer_id : Nat
  business_disposal_due_id : Option Nat
  amount : Int
  due_date : Int
  status : DueStatus
  source_type : RetailerSourceType
deriving DecidableEq

/-- Row of the company_disposal_dues table. -/
structure CompanyDisposalDue where
  id : Nat
  company_id : Nat
  retailer_disposal_due_id : Option Nat
  amount : Int
  due_date : Int
  status : DueStatus
  source_type : CompanySourceType
deriving DecidableEq

/-- The database state: the tables the cascade engine reads and writes,
plus a counter standing in for uuid generation. -/
structure DB where
  transactions : List Transaction
  business_transactions : List BusinessTransaction
  inventory_transactions : List InventoryTransaction
  retailer_inventory : List RetailerInventory
  company_products : List CompanyProduct
  retailers : List Retailer
  businesses : List Business
  consumer_disposal_dues : List ConsumerDisposalDue
  business_disposal_dues : List BusinessDisposalDue
  retailer_disposal_dues : List RetailerDisposalDue
  company_disposal_dues : List CompanyDisposalDue
  nextId : Nat
deriving DecidableEq

/-- Failure of a supabase store call, as surfaced to the TS client. -/
inductive DbError
  | notFound
  | persistenceFailure
deriving DecidableEq

/-- Errors thrown by updateInventoryAfterTransaction: a failed row fetch,
or the insufficient-inventory error carrying current and requested. -/
inductive InvError
  | notFound
  | insufficientStock (current requested : Int)
deriving DecidableEq

/-- NOTICE and WARNING messages raised by create_retailer_disposal_due. -/
inductive RetailerNotice
  | createdRetailerDue (retailerId : Nat)
  | noRetailerFound (businessId : Nat)
deriving DecidableEq

/-- getItemStatus from the inventory screen: 0 maps to out_of_stock, any
other quantity to available. -/
def getItemStatus (quantity : Int) : ItemStatus :=
  if quantity = 0 then ItemStatus.out_of_stock else ItemStatus.available

/-- Lookup inside create_business_disposal_due: the first business_id of
a business_transactions row joined on inventory_id with the transactions
row NEW.transaction_id (SELECT ... JOIN ... LIMIT 1). -/
def lookupBusinessForTransaction (db : DB) (transactionId : Nat) : Option Nat :=
  match db.transactions.find? (fun t => t.id == transactionId) with
  | none => none
  | some t =>
    (db.business_transactions.find? (fun bt => bt.inventory_id == t.inventory_id)).map
      (fun bt => bt.business_id)

/-- First lookup of create_retailer_disposal_due: a retailer whose
registered_businesses array contains the business id. -/
def findRetailerByRegistered (db : DB) (businessId : Nat) : Option Nat :=
  (db.retailers.find? (fun r => r.registered_businesses.contains businessId)).map
    (fun r => r.id)

/-- Fallback lookup of create_retailer_disposal_due: the retailer of the
inventory row of the first inventory_transactions row of this business. -/
def findRetailerByInventoryTxns (db : DB) (businessId : Nat) : Option Nat :=
  match db.inventory_transactions.find? (fun it => it.business_id == businessId) with
  | none => none
  | some it =>
    (db.retailer_inventory.find? (fun ri => ri.id == it.inventory_id)).map
      (fun ri => ri.retailer_id)

/-- Lookup inside create_company_disposal_due: the company of the first
company product appearing in the given retailer's inventory. -/
def findCompanyForRetailer (db : DB) (retailerId : Nat) : Option Nat :=
  (db.retailer_inventory.filterMap (fun ri =>
    if ri.retailer_id == retailerId then
      match ri.company_product_id with
      | some cpid =>
        (db.company_products.find? (fun cp => cp.id == cpid)).map (fun cp => cp.company_id)
      | none => none
    else none)).head?

/-- Trigger function create_business_disposal_due, fired AFTER UPDATE on
consumer_disposal_dues: on a transition into paid it inserts a pending
business due with the same amount and a 15-day offset. -/
def create_business_disposal_due (db : DB) (today : Int)
    (oldRow newRow : ConsumerDisposalDue) : DB :=
  if newRow.status = DueStatus.paid ∧ oldRow.status ≠ DueStatus.paid then
    match lookupBusinessForTransaction db newRow.transaction_id with
    | some business_id_var =>
      { db with
        business_disposal_dues := db.business_disposal_dues ++
          [⟨db.nextId, business_id_var, some newRow.id, newRow.amount,
            today + 15, DueStatus.pending⟩],
        nextId := db.nextId + 1 }
    | none => db
  else db

/-- Trigger function create_retailer_disposal_due, fired AFTER UPDATE on
business_disposal_dues: on a transition into paid it resolves a retailer
(registered_businesses first, inventory transactions as fallback) and
inserts a pending retailer due with the same amount and a 10-day offset;
when no retailer is found it raises a WARNING (noRetailerFound). -/
def create_retailer_disposal_due (db : DB) (today : Int)
    (oldRow newRow : BusinessDisposalDue) : DB × Option RetailerNotice :=
  if newRow.status = DueStatus.paid ∧ oldRow.status ≠ DueStatus.paid then
    match findRetailerByRegistered db newRow.business_id,
          findRetailerByInventoryTxns db newRow.business_id with
    | some retailer_id_var, _ =>
      ({ db with
         retailer_disposal_dues := db.retailer_disposal_dues ++
           [⟨db.nextId, retailer_id_var, some newRow.id, newRow.amount,
             today + 10, DueStatus.pending, RetailerSourceType.business_chain⟩],
         nextId := db.nextId + 1 },
       some (RetailerNotice.createdRetailerDue retailer_id_var))
    | none, some retailer_id_var =>
      ({ db with
         retailer_disposal_dues := db.retailer_disposal_dues ++
           [⟨db.nextId, retailer_id_var, some newRow.id, newRow.amount,
             today + 10, DueStatus.pending, RetailerSourceType.business_chain⟩],
         nextId := db.nextId + 1 },
       some (RetailerNotice.createdRetailerDue retailer_id_var))
    | none, none => (db, some (RetailerNotice.noRetailerFound newRow.business_id))
  else (db, none)

/-- Trigger function create_company_disposal_due, fired AFTER UPDATE on
retailer_disposal_dues: on a transition into paid it resolves a company
from the retailer's inventory and inserts a pending company due with the
same amount and a 7-day offset. -/
def create_company_disposal_due (db : DB) (today : Int)
    (oldRow newRow : RetailerDisposalDue) : DB :=
  if newRow.status = DueStatus.paid ∧ oldRow.status ≠ DueStatus.paid then
    match findCompanyForRetailer db newRow.retailer_id with
    | some company_id_var =>
      { db with
        company_disposal_dues := db.company_disposal_dues ++
          [⟨db.nextId, company_id_var, some newRow.id, newRow.amount,
            today + 7, DueStatus.pending, CompanySourceType.retailer_chain⟩],
        nextId := db.nextId + 1 }
    | none => db
  else db

/-- Trigger function create_consumer_disposal_due_on_purchase, fired
AFTER INSERT on transactions: when plastic_disposal_fee > 0 it inserts a
pending consumer due over the fee with a 30-day offset. -/
def create_consumer_disposal_due_on_purchase (db : DB) (today : Int)
    (newRow : Transaction) : DB :=
  if newRow.plastic_disposal_fee > 0 then
    { db with
      consumer_disposal_dues := db.consumer_disposal_dues ++
        [⟨db.nextId, newRow.user_id, newRow.id, newRow.plastic_disposal_fee,
          today + 30, DueStatus.pending⟩],
      nextId := db.nextId + 1 }
  else db

/-- Insert into the transactions table, firing the AFTER INSERT trigger;
returns the inserted row. -/
def insertTransaction (db : DB) (today : Int) (userId inventoryId : Nat)
    (costPaid fee : Int) : DB × Transaction :=
  let t : Transaction := ⟨db.nextId, userId, inventoryId, costPaid, fee⟩
  let db1 := { db with transactions := db.transactions ++ [t], nextId := db.nextId + 1 }
  (create_consumer_disposal_due_on_purchase db1 today t, t)

/-- Client createConsumerDisposalDue: plain insert of a pending consumer
due (consumer_disposal_dues has no INSERT trigger). -/
def createConsumerDisposalDue (db : DB) (consumerId transactionId : Nat)
    (amount dueDate : Int) : DB × ConsumerDisposalDue :=
  let d : ConsumerDisposalDue :=
    ⟨db.nextId, consumerId, transactionId, amount, dueDate, DueStatus.pending⟩
  ({ db with consumer_disposal_dues := db.consumer_disposal_dues ++ [d],
             nextId := db.nextId + 1 }, d)

/-- Client ensureBusinessRetailerRelationship: fetch the retailer row and
append the business id to registered_businesses when not already present;
no other column is written. -/
def ensureBusinessRetailerRelationship (db : DB) (businessId retailerId : Nat) :
    Except DbError DB :=
  match db.retailers.find? (fun r => r.id == retailerId) with
  | none => Except.error DbError.notFound
  | some r =>
    if businessId ∈ r.registered_businesses then Except.ok db
    else Except.ok
      { db with retailers := db.retailers.map (fun r2 =>
          if r2.id == retailerId then
            { r2 with registered_businesses := r2.registered_businesses ++ [businessId] }
          else r2) }

/-- Client createCompleteDisposalDueFlow: insert only the consumer due
(the DB triggers are expected to cascade) and maintain the
business-retailer relationship; returns the consumer due id. -/
def createCompleteDisposalDueFlow (db : DB)
    (consumerId transactionId businessId retailerId companyId : Nat)
    (amount dueDate : Int) : Except DbError (DB × Nat) :=
  let step := createConsumerDisposalDue db consumerId transactionId amount dueDate
  (ensureBusinessRetailerRelationship step.1 businessId retailerId).map
    (fun db2 => (db2, step.2.id))

/-- Client payConsumerDisposalDue: update status to paid on the matching
rows; Postgres fires create_business_disposal_due for each updated row;
the client then returns true. -/
def payConsumerDisposalDue (db : DB) (today : Int) (consumerDisposalDueId : Nat) :
    DB × Bool :=
  let updatedRows := db.consumer_disposal_dues.filterMap (fun d =>
    if d.id == consumerDisposalDueId then some (d, { d with status := DueStatus.paid })
    else none)
  let db1 := { db with consumer_disposal_dues := db.consumer_disposal_dues.map (fun d =>
    if d.id == consumerDisposalDueId then { d with status := DueStatus.paid } else d) }
  (updatedRows.foldl (fun acc pr => create_business_disposal_due acc today pr.1 pr.2) db1,
   true)

/-- Client payBusinessDisposalDue: update status to paid on the matching
rows; Postgres fires create_retailer_disposal_due for each updated row
(collecting its notices); the client then returns true. -/
def payBusinessDisposalDue (db : DB) (today : Int) (businessDisposalDueId : Nat) :
    DB × List (Option RetailerNotice) × Bool :=
  let updatedRows := db.business_disposal_dues.filterMap (fun d =>
    if d.id == businessDisposalDueId then some (d, { d with status := DueStatus.paid })
    else none)
  let db1 := { db with business_disposal_dues := db.business_disposal_dues.map (fun d =>
    if d.id == businessDisposalDueId then { d with status := DueStatus.paid } else d) }
  let res := updatedRows.foldl (fun acc pr =>
      let step := create_retailer_disposal_due acc.1 today pr.1 pr.2
      (step.1, acc.2 ++ [step.2]))
    (db1, ([] : List (Option RetailerNotice)))
  (res.1, res.2, true)

/-- Client payRetailerDisposalDue: update status to paid on the matching
rows; Postgres fires create_company_disposal_due for each updated row;
the client then returns true. -/
def payRetailerDisposalDue (db : DB) (today : Int) (retailerDisposalDueId : Nat) :
    DB × Bool :=
  let updatedRows := db.retailer_disposal_dues.filterMap (fun d =>
    if d.id == retailerDisposalDueId then some (d, { d with status := DueStatus.paid })
    else none)
  let db1 := { db with retailer_disposal_dues := db.retailer_disposal_dues.map (fun d =>
    if d.id == retailerDisposalDueId then { d with status := DueStatus.paid } else d) }
  (updatedRows.foldl (fun acc pr => create_company_disposal_due acc today pr.1 pr.2) db1,
   true)

/-- Client createRetailerCompanyDisposalDue: insert the retailer due of
the direct pair (parent null, source company_purchase, 30-day offset),
then insert the matching company due (source direct_purchase, 37-day
offset).  The two inserts are separate store calls: when the second one
fails (companyInsertFails) the function rethrows the error and performs
no rollback of the first insert. -/
def createRetailerCompanyDisposalDue (db : DB) (today : Int)
    (retailerId companyId : Nat) (amount : Int) (companyInsertFails : Bool) :
    DB × Except DbError (RetailerDisposalDue × CompanyDisposalDue) :=
  let rd : RetailerDisposalDue :=
    ⟨db.nextId, retailerId, none, amount, today + 30, DueStatus.pending,
     RetailerSourceType.company_purchase⟩
  let db1 := { db with retailer_disposal_dues := db.retailer_disposal_dues ++ [rd],
                       nextId := db.nextId + 1 }
  if companyInsertFails then (db1, Except.error DbError.persistenceFailure)
  else
    let cd : CompanyDisposalDue :=
      ⟨db1.nextId, companyId, some rd.id, amount, today + 37, DueStatus.pending,
       CompanySourceType.direct_purchase⟩
    ({ db1 with company_disposal_dues := db1.company_disposal_dues ++ [cd],
                nextId := db1.nextId + 1 },
     Except.ok (rd, cd))

/-- Overdue sweep step on consumer_disposal_dues: set status overdue
where status is pending and due_date < today, firing the AFTER UPDATE
trigger for each updated row. -/
def sweepConsumerDues (db : DB) (today : Int) : DB :=
  let updatedRows := db.consumer_disposal_dues.filterMap (fun d =>
    if d.status = DueStatus.pending ∧ d.due_date < today then
      some (d, { d with status := DueStatus.overdue })
    else none)
  let db1 := { db with consumer_disposal_dues := db.consumer_disposal_dues.map (fun d =>
    if d.status = DueStatus.pending ∧ d.due_date < today then
      { d with status := DueStatus.overdue }
    else d) }
  updatedRows.foldl (fun acc pr => create_business_disposal_due acc today pr.1 pr.2) db1

/-- Overdue sweep step on business_disposal_dues (notices dropped, as the
client never sees them). -/
def sweepBusinessDues (db : DB) (today : Int) : DB :=
  let updatedRows := db.business_disposal_dues.filterMap (fun d =>
    if d.status = DueStatus.pending ∧ d.due_date < today then
      some (d, { d with status := DueStatus.overdue })
    else none)
  let db1 := { db with business_disposal_dues := db.business_disposal_dues.map (fun d =>
    if d.status = DueStatus.pending ∧ d.due_date < today then
      { d with status := DueStatus.overdue }
    else d) }
  updatedRows.foldl (fun acc pr => (create_retailer_disposal_due acc today pr.1 pr.2).1) db1

/-- Overdue sweep step on retailer_disposal_dues. -/
def sweepRetailerDues (db : DB) (today : Int) : DB :=
  let updatedRows := db.retailer_disposal_dues.filterMap (fun d =>
    if d.status = DueStatus.pending ∧ d.due_date < today then
      some (d, { d with status := DueStatus.overdue })
    else none)
  let db1 := { db with retailer_disposal_dues := db.retailer_disposal_dues.map (fun d =>
    if d.status = DueStatus.pending ∧ d.due_date < today then
      { d with status := DueStatus.overdue }
    else d) }
  updatedRows.foldl (fun acc pr => create_company_disposal_due acc today pr.1 pr.2) db1

/-- Overdue sweep step on company_disposal_dues (no trigger on that
table). -/
def sweepCompanyDues (db : DB) (today : Int) : DB :=
  { db with company_disposal_dues := db.company_disposal_dues.map (fun d =>
    if d.status = DueStatus.pending ∧ d.due_date < today then
      { d with status := DueStatus.overdue }
    else d) }

/-- Client updateOverdueDues: the four bulk pending-to-overdue updates in
source order (consumer, business, retailer, company). -/
def updateOverdueDues (db : DB) (today : Int) : DB :=
  sweepCompanyDues (sweepRetailerDues (sweepBusinessDues (sweepConsumerDues db today) today) today) today

/-- The switch of updateInventoryAfterTransaction computing the new
quantity from the fetched quantity and the requested delta. -/
def newQuantityFor (transactionType : TransactionType) (current delta : Int) : Int :=
  match transactionType with
  | TransactionType.purchase => current - delta
  | TransactionType.ret => current + delta
  | TransactionType.adjustment => delta

/-- Client updateInventoryAfterTransaction: fetch the row, compute the
new quantity, throw insufficientStock when it would be negative (before
any write), otherwise write quantity and updated_at on the matching rows
and return true. -/
def updateInventoryAfterTransaction (db : DB) (now : Int) (inventoryId : Nat)
    (quantity : Int) (transactionType : TransactionType) : DB × Except InvError Bool :=
  match db.retailer_inventory.find? (fun i => i.id == inventoryId) with
  | none => (db, Except.error InvError.notFound)
  | some currentInventory =>
    let newQuantity := newQuantityFor transactionType currentInventory.quantity quantity
    if newQuantity < 0 then
      (db, Except.error (InvError.insufficientStock currentInventory.quantity quantity))
    else
      ({ db with retailer_inventory := db.retailer_inventory.map (fun i =>
          if i.id == inventoryId then { i with quantity := newQuantity, updated_at := now }
          else i) },
       Except.ok true)

/-- Argument record of createInventoryTransaction. -/
structure InventoryTransactionData where
  inventory_id : Nat
  business_id : Nat
  quantity : Int
  transaction_type : TransactionType
  unit_price : Int
  total_amount : Int
  plastic_quantity_purchased : Int
  plastic_disposal_cost : Int
deriving DecidableEq

/-- Client createInventoryTransaction: insert the inventory transaction;
when plastic_disposal_cost > 0 on a purchase, look up the inventory row
and its company product, insert a consumer transaction for the business
owner (which fires the AFTER INSERT trigger), and run
createCompleteDisposalDueFlow; returns the inventory transaction id. -/
def createInventoryTransaction (db : DB) (today : Int)
    (td : InventoryTransactionData) : Except DbError (DB × Nat) :=
  let it : InventoryTransaction :=
    ⟨db.nextId, td.inventory_id, td.business_id, td.quantity, td.transaction_type,
     td.unit_price, td.total_amount, td.plastic_quantity_purchased,
     td.plastic_disposal_cost⟩
  let db1 := { db with inventory_transactions := db.inventory_transactions ++ [it],
                       nextId := db.nextId + 1 }
  if td.plastic_disposal_cost > 0 ∧ td.transaction_type = TransactionType.purchase then
    match db1.retailer_inventory.find? (fun ri => ri.id == td.inventory_id) with
    | none => Except.error DbError.notFound
    | some ri =>
      match ri.company_product_id.bind (fun cpid =>
        db1.company_products.find? (fun cp => cp.id == cpid)) with
      | none => Except.error DbError.notFound
      | some cp =>
        match db1.businesses.find? (fun b => b.id == td.business_id) with
        | none => Except.error DbError.notFound
        | some b =>
          let step := insertTransaction db1 today b.owner_id td.inventory_id
            td.total_amount td.plastic_disposal_cost
          (createCompleteDisposalDueFlow step.1 step.2.user_id step.2.id td.business_id
            ri.retailer_id cp.company_id td.plastic_disposal_cost (today + 30)).map
            (fun p => (p.1, it.id))
  else Except.ok (db1, it.id)

/-! ## Helper lemmas -/

theorem foldl_eq_init {α β : Type} (f : β → α → β) (l : List α)
    (h : ∀ b, ∀ a ∈ l, f b a = b) : ∀ b, l.foldl f b = b := by
  induction l with
  | nil => intro b; rfl
  | cons x xs ih =>
    intro b
    rw [List.foldl_cons, h b x (List.mem_cons_self x xs)]
    exact ih (fun b' a ha => h b' a (List.mem_cons_of_mem x ha)) b

theorem consumer_due_set_paid_self (d : ConsumerDisposalDue)
    (h : d.status = DueStatus.paid) : { d with status := DueStatus.paid } = d := by
  rw [← h]

theorem business_due_set_paid_self (d : BusinessDisposalDue)
    (h : d.status = DueStatus.paid) : { d with status := DueStatus.paid } = d := by
  rw [← h]

theorem retailer_due_set_paid_self (d : RetailerDisposalDue)
    (h : d.status = DueStatus.paid) : { d with status := DueStatus.paid } = d := by
  rw [← h]

theorem create_business_disposal_due_of_old_paid (db : DB) (today : Int)
    (oldRow newRow : ConsumerDisposalDue) (h : oldRow.status = DueStatus.paid) :
    create_business_disposal_due db today oldRow newRow = db := by
  unfold create_business_disposal_due
  rw [if_neg (by simp [h])]

theorem create_retailer_disposal_due_of_old_paid (db : DB) (today : Int)
    (oldRow newRow : BusinessDisposalDue) (h : oldRow.status = DueStatus.paid) :
    create_retailer_disposal_due db today oldRow newRow = (db, none) := by
  unfold create_retailer_disposal_due
  rw [if_neg (by simp [h])]

theorem create_company_disposal_due_of_old_paid (db : DB) (today : Int)
    (oldRow newRow : RetailerDisposalDue) (h : oldRow.status = DueStatus.paid) :
    create_company_disposal_due db today oldRow newRow = db := by
  unfold create_company_disposal_due
  rw [if_neg (by simp [h])]

theorem create_business_disposal_due_of_new_not_paid (db : DB) (today : Int)
    (oldRow newRow : ConsumerDisposalDue) (h : newRow.status ≠ DueStatus.paid) :
    create_business_disposal_due db today oldRow newRow = db := by
  unfold create_business_disposal_due
  rw [if_neg (by simp [h])]

theorem create_retailer_disposal_due_of_new_not_paid (db : DB) (today : Int)
    (oldRow newRow : BusinessDisposalDue) (h : newRow.status ≠ DueStatus.paid) :
    create_retailer_disposal_due db today oldRow newRow = (db, none) := by
  unfold create_retailer_disposal_due
  rw [if_neg (by simp [h])]

theorem create_company_disposal_due_of_new_not_paid (db : DB) (today : Int)
    (oldRow newRow : RetailerDisposalDue) (h : newRow.status ≠ DueStatus.paid) :
    create_company_disposal_due db today oldRow newRow = db := by
  unfold create_company_disposal_due
  rw [if_neg (by simp [h])]

theorem map_set_paid_self_consumer (l : List ConsumerDisposalDue) (i : Nat)
    (h : ∀ d ∈ l, d.id = i → d.status = DueStatus.paid) :
    (l.map (fun d => if d.id == i then { d with status := DueStatus.paid } else d)) = l := by
  induction l with
  | nil => rfl
  | cons x xs ih =>
    rw [List.map_cons, ih (fun d hd => h d (List.mem_cons_of_mem x hd))]
    by_cases hx : x.id = i
    · rw [if_pos (beq_iff_eq.mpr hx),
        consumer_due_set_paid_self x (h x (List.mem_cons_self x xs) hx)]
    · rw [if_neg (by simpa using hx)]

theorem map_set_paid_self_business (l : List BusinessDisposalDue) (i : Nat)
    (h : ∀ d ∈ l, d.id = i → d.status = DueStatus.paid) :
    (l.map (fun d => if d.id == i then { d with status := DueStatus.paid } else d)) = l := by
  induction l with
  | nil => rfl
  | cons x xs ih =>
    rw [List.map_cons, ih (fun d hd => h d (List.mem_cons_of_mem x hd))]
    by_cases hx : x.id = i
    · rw [if_pos (beq_iff_eq.mpr hx),
        business_due_set_paid_self x (h x (List.mem_cons_self x xs) hx)]
    · rw [if_neg (by simpa using hx)]

theorem map_set_paid_self_retailer (l : List RetailerDisposalDue) (i : Nat)
    (h : ∀ d ∈ l, d.id = i → d.status = DueStatus.paid) :
    (l.map (fun d => if d.id == i then { d with status := DueStatus.paid } else d)) = l := by
  induction l with
  | nil => rfl
  | cons x xs ih =>
    rw [List.map_cons, ih (fun d hd => h d (List.mem_cons_of_mem x hd))]
    by_cases hx : x.id = i
    · rw [if_pos (beq_iff_eq.mpr hx),
        retailer_due_set_paid_self x (h x (List.mem_cons_self x xs) hx)]
    · rw [if_neg (by simpa using hx)]

theorem pay_pairs_fst_paid_consumer (l : List ConsumerDisposalDue) (i : Nat)
    (h : ∀ d ∈ l, d.id = i → d.status = DueStatus.paid) :
    ∀ pr ∈ l.filterMap (fun d =>
      if d.id == i then some (d, { d with status := DueStatus.paid }) else none),
      pr.1.status = DueStatus.paid := by
  intro pr hpr
  obtain ⟨d, hd, hsome⟩ := List.mem_filterMap.mp hpr
  by_cases hx : d.id = i
  · rw [if_pos (beq_iff_eq.mpr hx)] at hsome
    cases hsome
    exact h d hd hx
  · rw [if_neg (by simpa using hx)] at hsome
    simp at hsome

theorem pay_pairs_fst_paid_business (l : List BusinessDisposalDue) (i : Nat)
    (h : ∀ d ∈ l, d.id = i → d.status = DueStatus.paid) :
    ∀ pr ∈ l.filterMap (fun d =>
      if d.id == i then some (d, { d with status := DueStatus.paid }) else none),
      pr.1.status = DueStatus.paid := by
  intro pr hpr
  obtain ⟨d, hd, hsome⟩ := List.mem_filterMap.mp hpr
  by_cases hx : d.id = i
  · rw [if_pos (beq_iff_eq.mpr hx)] at hsome
    cases hsome
    exact h d hd hx
  · rw [if_neg (by simpa using hx)] at hsome
    simp at hsome

theorem pay_pairs_fst_paid_retailer (l : List RetailerDisposalDue) (i : Nat)
    (h : ∀ d ∈ l, d.id = i → d.status = DueStatus.paid) :
    ∀ pr ∈ l.filterMap (fun d =>
      if d.id == i then some (d, { d with status := DueStatus.paid }) else none),
      pr.1.status = DueStatus.paid := by
  intro pr hpr
  obtain ⟨d, hd, hsome⟩ := List.mem_filterMap.mp hpr
  by_cases hx : d.id = i
  · rw [if_pos (beq_iff_eq.mpr hx)] at hsome
    cases hsome
    exact h d hd hx
  · rw [if_neg (by simpa using hx)] at hsome
    simp at hsome

theorem payBusiness_fold_fst (today : Int)
    (l : List (BusinessDisposalDue × BusinessDisposalDue))
    (h : ∀ pr ∈ l, pr.1.status = DueStatus.paid) :
    ∀ (d : DB) (outs : List (Option RetailerNotice)),
      (l.foldl (fun acc pr =>
        ((create_retailer_disposal_due acc.1 today pr.1 pr.2).1,
         acc.2 ++ [(create_retailer_disposal_due acc.1 today pr.1 pr.2).2]))
        (d, outs)).1 = d := by
  induction l with
  | nil => intro d outs; rfl
  | cons x xs ih =>
    intro d outs
    simp only [List.foldl_cons]
    rw [create_retailer_disposal_due_of_old_paid d today x.1 x.2
      (h x (List.mem_cons_self x xs))]
    exact ih (fun pr hpr => h pr (List.mem_cons_of_mem x hpr)) d (outs ++ [none])

/-! ## Claim C1 -/

/-- Claim C1: for a due at the consumer, business, or retailer tier whose
status is already paid, a further settle/update writing paid to it again
leaves the database unchanged — in particular it creates no additional
next-tier due: the cascade fires only on the transition into paid. -/
theorem claim_C1_repay_paid_noop (db : DB) (today : Int) (cid bid rid : Nat)
    (hc : ∀ d ∈ db.consumer_disposal_dues, d.id = cid → d.status = DueStatus.paid)
    (hb : ∀ d ∈ db.business_disposal_dues, d.id = bid → d.status = DueStatus.paid)
    (hr : ∀ d ∈ db.retailer_disposal_dues, d.id = rid → d.status = DueStatus.paid) :
    (payConsumerDisposalDue db today cid).1 = db ∧
    (payBusinessDisposalDue db today bid).1 = db ∧
    (payRetailerDisposalDue db today rid).1 = db := by
  refine ⟨?_, ?_, ?_⟩
  · simp only [payConsumerDisposalDue]
    rw [map_set_paid_self_consumer _ _ hc]
    exact foldl_eq_init _ _
      (fun b pr hpr => create_business_disposal_due_of_old_paid b today pr.1 pr.2
        (pay_pairs_fst_paid_consumer _ _ hc pr hpr)) _
  · simp only [payBusinessDisposalDue]
    rw [map_set_paid_self_business _ _ hb]
    exact payBusiness_fold_fst today _ (pay_pairs_fst_paid_business _ _ hb) _ _
  · simp only [payRetailerDisposalDue]
    rw [map_set_paid_self_retailer _ _ hr]
    exact foldl_eq_init _ _
      (fun b pr hpr => create_company_disposal_due_of_old_paid b today pr.1 pr.2
        (pay_pairs_fst_paid_retailer _ _ hr pr hpr)) _

/-- Witness database for claim C1: one already-paid due at each tier. -/
def exDbC1 : DB :=
  { transactions := [], business_transactions := [], inventory_transactions := [],
    retailer_inventory := [], company_products := [], retailers := [], businesses := [],
    consumer_disposal_dues := [⟨1, 7, 11, 20, 100, DueStatus.paid⟩],
    business_disposal_dues := [⟨2, 8, some 1, 20, 100, DueStatus.paid⟩],
    retailer_disposal_dues :=
      [⟨3, 9, some 2, 20, 100, DueStatus.paid, RetailerSourceType.business_chain⟩],
    company_disposal_dues := [], nextId := 4 }

/-- Witness for claim C1 at a concrete database. -/
theorem claim_C1_witness :
    (payConsumerDisposalDue exDbC1 200 1).1 = exDbC1 ∧
    (payBusinessDisposalDue exDbC1 200 2).1 = exDbC1 ∧
    (payRetailerDisposalDue exDbC1 200 3).1 = exDbC1 :=
  claim_C1_repay_paid_noop exDbC1 200 1 2 3 (by decide) (by decide) (by decide)

/-! ## Claim C2 -/

/-- The empty database. -/
def emptyDB : DB := ⟨[], [], [], [], [], [], [], [], [], [], [], 0⟩

/-- Claim C2 counterexample: running createRetailerCompanyDisposalDue on
the empty database with a failing company-due insert propagates the
error, yet the just-inserted retailer due of the pair is still present
and no company due exists — the partial cascade state the claim says is
never observable. -/
theorem claim_C2_counterexample :
    (createRetailerCompanyDisposalDue emptyDB 0 1 2 50 true).2
        = Except.error DbError.persistenceFailure ∧
    (createRetailerCompanyDisposalDue emptyDB 0 1 2 50 true).1.retailer_disposal_dues
        = [⟨0, 1, none, 50, 30, DueStatus.pending, RetailerSourceType.company_purchase⟩] ∧
    (createRetailerCompanyDisposalDue emptyDB 0 1 2 50 true).1.company_disposal_dues
        = [] :=
  ⟨rfl, rfl, rfl⟩

/-- Claim C2 (amended): the direct retailer-to-company pair creation is
not atomic.  When the company-due insert fails, the error is propagated
to the caller, but the retailer due inserted by the first store call is
not rolled back: the post-state contains it (source company_purchase,
parent null) while the company due table is untouched, so the partial
pair is observable. -/
theorem claim_C2_amended (db : DB) (today : Int) (retailerId companyId : Nat)
    (amount : Int) :
    (createRetailerCompanyDisposalDue db today retailerId companyId amount true).2
        = Except.error DbError.persistenceFailure ∧
    (createRetailerCompanyDisposalDue db today retailerId companyId amount
        true).1.retailer_disposal_dues
        = db.retailer_disposal_dues ++
          [⟨db.nextId, retailerId, none, amount, today + 30, DueStatus.pending,
            RetailerSourceType.company_purchase⟩] ∧
    (createRetailerCompanyDisposalDue db today retailerId companyId amount
        true).1.company_disposal_dues
        = db.company_disposal_dues :=
  ⟨rfl, rfl, rfl⟩

/-! ## Claim C3 -/

/-- Database for claim C3 with an already-paid due (id 1) at each tier. -/
def exDbC3paid : DB :=
  { emptyDB with
    consumer_disposal_dues := [⟨1, 7, 11, 20, 100, DueStatus.paid⟩],
    business_disposal_dues := [⟨1, 8, some 9, 20, 100, DueStatus.paid⟩],
    retailer_disposal_dues :=
      [⟨1, 9, none, 20, 100, DueStatus.paid, RetailerSourceType.company_purchase⟩],
    nextId := 50 }

/-- Database for claim C3 with the same dues still pending. -/
def exDbC3fresh : DB :=
  { emptyDB with
    consumer_disposal_dues := [⟨1, 7, 11, 20, 100, DueStatus.pending⟩],
    business_disposal_dues := [⟨1, 8, some 9, 20, 100, DueStatus.pending⟩],
    retailer_disposal_dues :=
      [⟨1, 9, none, 20, 100, DueStatus.pending, RetailerSourceType.company_purchase⟩],
    nextId := 50 }

/-- Claim C3 counterexample: settling an already-paid due returns exactly
the same caller-visible result (true) as a genuine fresh settle at every
tier — there is no distinct AlreadySettled result. -/
theorem claim_C3_counterexample :
    (payConsumerDisposalDue exDbC3paid 0 1).2
        = (payConsumerDisposalDue exDbC3fresh 0 1).2 ∧
    (payBusinessDisposalDue exDbC3paid 0 1).2.2
        = (payBusinessDisposalDue exDbC3fresh 0 1).2.2 ∧
    (payRetailerDisposalDue exDbC3paid 0 1).2
        = (payRetailerDisposalDue exDbC3fresh 0 1).2 := by
  decide

/-- Claim C3 (amended): the pay operations report plain success (true) to
the caller unconditionally — in particular also when the due is already
paid — so an already-settled call is merged with ordinary success rather
than reported distinctly. -/
theorem claim_C3_amended (db : DB) (today : Int) (dueId : Nat) :
    (payConsumerDisposalDue db today dueId).2 = true ∧
    (payBusinessDisposalDue db today dueId).2.2 = true ∧
    (payRetailerDisposalDue db today dueId).2 = true :=
  ⟨rfl, rfl, rfl⟩

/-! ## Claim C4 -/

/-- Database for claim C4: one retailer (id 1), one business (id 2, owner
user 3), one inventory row (id 4) holding company product 5 of company 6. -/
def exDbC4 : DB :=
  { emptyDB with
    retailers := [⟨1, 30, 0, [], 0, 0⟩],
    businesses := [⟨2, 3⟩],
    retailer_inventory := [⟨4, some 5, 1, 10, 10, ItemStatus.available, 100, 1, 100, 0⟩],
    company_products := [⟨5, 6, 1, 2⟩],
    nextId := 100 }

/-- Purchase data for claim C4 with plastic_disposal_cost 20 > 0. -/
def exTdC4 : InventoryTransactionData :=
  ⟨4, 2, 2, TransactionType.purchase, 10, 20, 100, 20⟩

/-- Claim C4 evaluation (code bug): recording one business purchase with
plastic_disposal_cost 20 via createInventoryTransaction inserts one
consumer transaction (id 101) but ends with TWO root consumer disposal
dues referencing it, each over the full fee — one from the AFTER INSERT
trigger create_consumer_disposal_due_on_purchase, one from the explicit
insert inside createCompleteDisposalDueFlow — where the claim (and the
client's own comment that only one consumer due is to be created, with
triggers handling the cascade) requires exactly one. -/
theorem claim_C4_eval :
    (match createInventoryTransaction exDbC4 0 exTdC4 with
     | Except.ok p => p.1.consumer_disposal_dues.map (fun d => (d.transaction_id, d.amount))
     | Except.error _ => []) = [(101, 20), (101, 20)] := by
  decide

/-! ## Claim C5 -/

/-- Claim C5: every cascade-created due copies its parent's amount
verbatim.  Each trigger function either inserts nothing or appends a
next-tier due whose amount is exactly NEW.amount (the parent's amount),
and the direct retailer-company pair creation gives both dues of the pair
the same amount with no rounding or apportionment. -/
theorem claim_C5_amount_copied (db : DB) (today : Int)
    (oldC newC : ConsumerDisposalDue) (oldB newB : BusinessDisposalDue)
    (oldR newR : RetailerDisposalDue) (retailerId companyId : Nat) (amount : Int) :
    ((create_business_disposal_due db today oldC newC).business_disposal_dues
        = db.business_disposal_dues ∨
      ∃ bid, lookupBusinessForTransaction db newC.transaction_id = some bid ∧
        (create_business_disposal_due db today oldC newC).business_disposal_dues
          = db.business_disposal_dues ++
            [⟨db.nextId, bid, some newC.id, newC.amount, today + 15,
              DueStatus.pending⟩]) ∧
    ((create_retailer_disposal_due db today oldB newB).1.retailer_disposal_dues
        = db.retailer_disposal_dues ∨
      ∃ rid, (create_retailer_disposal_due db today oldB newB).1.retailer_disposal_dues
          = db.retailer_disposal_dues ++
            [⟨db.nextId, rid, some newB.id, newB.amount, today + 10, DueStatus.pending,
              RetailerSourceType.business_chain⟩]) ∧
    ((create_company_disposal_due db today oldR newR).company_disposal_dues
        = db.company_disposal_dues ∨
      ∃ cid, findCompanyForRetailer db newR.retailer_id = some cid ∧
        (create_company_disposal_due db today oldR newR).company_disposal_dues
          = db.company_disposal_dues ++
            [⟨db.nextId, cid, some newR.id, newR.amount, today + 7, DueStatus.pending,
              CompanySourceType.retailer_chain⟩]) ∧
    ((createRetailerCompanyDisposalDue db today retailerId companyId amount
        false).1.retailer_disposal_dues
        = db.retailer_disposal_dues ++
          [⟨db.nextId, retailerId, none, amount, today + 30, DueStatus.pending,
            RetailerSourceType.company_purchase⟩] ∧
      (createRetailerCompanyDisposalDue db today retailerId companyId amount
        false).1.company_disposal_dues
        = db.company_disposal_dues ++
          [⟨db.nextId + 1, companyId, some db.nextId, amount, today + 37,
            DueStatus.pending, CompanySourceType.direct_purchase⟩]) := by
  refine ⟨?_, ?_, ?_, rfl, rfl⟩
  · unfold create_business_disposal_due
    by_cases hg : newC.status = DueStatus.paid ∧ oldC.status ≠ DueStatus.paid
    · rw [if_pos hg]
      cases hl : lookupBusinessForTransaction db newC.transaction_id with
      | none => left; rfl
      | some bid => right; exact ⟨bid, rfl, rfl⟩
    · rw [if_neg hg]; left; rfl
  · unfold create_retailer_disposal_due
    by_cases hg : newB.status = DueStatus.paid ∧ oldB.status ≠ DueStatus.paid
    · rw [if_pos hg]
      cases h1 : findRetailerByRegistered db newB.business_id with
      | some rid => right; exact ⟨rid, rfl⟩
      | none =>
        cases h2 : findRetailerByInventoryTxns db newB.business_id with
        | some rid => right; exact ⟨rid, rfl⟩
        | none => left; rfl
    · rw [if_neg hg]; left; rfl
  · unfold create_company_disposal_due
    by_cases hg : newR.status = DueStatus.paid ∧ oldR.status ≠ DueStatus.paid
    · rw [if_pos hg]
      cases hl : findCompanyForRetailer db newR.retailer_id with
      | none => left; rfl
      | some cid => right; exact ⟨cid, rfl, rfl⟩
    · rw [if_neg hg]; left; rfl

/-! ## Claim C6 -/

/-- Claim C6: an inventory purchase whose requested quantity exceeds the
stored quantity fails with the insufficient-stock error (carrying current
and requested quantities) and leaves the database — in particular the
stored quantity — completely unchanged: no partial write, no clamping. -/
theorem claim_C6_insufficient_stock (db : DB) (now : Int) (inventoryId : Nat)
    (quantity : Int) (currentInventory : RetailerInventory)
    (hfind : db.retailer_inventory.find? (fun i => i.id == inventoryId)
      = some currentInventory)
    (hlt : currentInventory.quantity < quantity) :
    updateInventoryAfterTransaction db now inventoryId quantity TransactionType.purchase
      = (db, Except.error
          (InvError.insufficientStock currentInventory.quantity quantity)) := by
  simp only [updateInventoryAfterTransaction, hfind]
  rw [if_pos (show newQuantityFor TransactionType.purchase currentInventory.quantity
    quantity < 0 by simp only [newQuantityFor]; omega)]

/-- Database for claim C6: one inventory row (id 4) with quantity 3. -/
def exDbC6 : DB :=
  { emptyDB with
    retailer_inventory := [⟨4, some 5, 1, 3, 10, ItemStatus.available, 100, 1, 100, 0⟩],
    nextId := 10 }

/-- Witness for claim C6: buying 5 units from a stock of 3 fails with
insufficientStock and leaves the database unchanged. -/
theorem claim_C6_witness :
    updateInventoryAfterTransaction exDbC6 9 4 5 TransactionType.purchase
      = (exDbC6, Except.error (InvError.insufficientStock 3 5)) :=
  claim_C6_insufficient_stock exDbC6 9 4 5
    ⟨4, some 5, 1, 3, 10, ItemStatus.available, 100, 1, 100, 0⟩ (by decide) (by decide)

/-! ## Claim C7 -/

theorem sweep_pairs_snd_overdue_consumer (l : List ConsumerDisposalDue) (today : Int) :
    ∀ pr ∈ l.filterMap (fun d =>
      if d.status = DueStatus.pending ∧ d.due_date < today then
        some (d, { d with status := DueStatus.overdue }) else none),
      pr.2.status = DueStatus.overdue := by
  intro pr hpr
  obtain ⟨d, hd, hsome⟩ := List.mem_filterMap.mp hpr
  by_cases hx : d.status = DueStatus.pending ∧ d.due_date < today
  · rw [if_pos hx] at hsome; cases hsome; rfl
  · rw [if_neg hx] at hsome; simp at hsome

theorem sweep_pairs_snd_overdue_business (l : List BusinessDisposalDue) (today : Int) :
    ∀ pr ∈ l.filterMap (fun d =>
      if d.status = DueStatus.pending ∧ d.due_date < today then
        some (d, { d with status := DueStatus.overdue }) else none),
      pr.2.status = DueStatus.overdue := by
  intro pr hpr
  obtain ⟨d, hd, hsome⟩ := List.mem_filterMap.mp hpr
  by_cases hx : d.status = DueStatus.pending ∧ d.due_date < today
  · rw [if_pos hx] at hsome; cases hsome; rfl
  · rw [if_neg hx] at hsome; simp at hsome

theorem sweep_pairs_snd_overdue_retailer (l : List RetailerDisposalDue) (today : Int) :
    ∀ pr ∈ l.filterMap (fun d =>
      if d.status = DueStatus.pending ∧ d.due_date < today then
        some (d, { d with status := DueStatus.overdue }) else none),
      pr.2.status = DueStatus.overdue := by
  intro pr hpr
  obtain ⟨d, hd, hsome⟩ := List.mem_filterMap.mp hpr
  by_cases hx : d.status = DueStatus.pending ∧ d.due_date < today
  · rw [if_pos hx] at hsome; cases hsome; rfl
  · rw [if_neg hx] at hsome; simp at hsome

theorem sweepConsumerDues_eq (db : DB) (today : Int) :
    sweepConsumerDues db today
      = { db with consumer_disposal_dues := db.consumer_disposal_dues.map (fun d =>
          if d.status = DueStatus.pending ∧ d.due_date < today then
            { d with status := DueStatus.overdue } else d) } := by
  unfold sweepConsumerDues
  exact foldl_eq_init _ _ (fun b pr hpr =>
    create_business_disposal_due_of_new_not_paid b today pr.1 pr.2
      (by rw [sweep_pairs_snd_overdue_consumer _ today pr hpr]; decide)) _

theorem sweepBusinessDues_eq (db : DB) (today : Int) :
    sweepBusinessDues db today
      = { db with business_disposal_dues := db.business_disposal_dues.map (fun d =>
          if d.status = DueStatus.pending ∧ d.due_date < today then
            { d with status := DueStatus.overdue } else d) } := by
  unfold sweepBusinessDues
  refine foldl_eq_init _ _ (fun b pr hpr => ?_) _
  rw [create_retailer_disposal_due_of_new_not_paid b today pr.1 pr.2
    (by rw [sweep_pairs_snd_overdue_business _ today pr hpr]; decide)]

theorem sweepRetailerDues_eq (db : DB) (today : Int) :
    sweepRetailerDues db today
      = { db with retailer_disposal_dues := db.retailer_disposal_dues.map (fun d =>
          if d.status = DueStatus.pending ∧ d.due_date < today then
            { d with status := DueStatus.overdue } else d) } := by
  unfold sweepRetailerDues
  exact foldl_eq_init _ _ (fun b pr hpr =>
    create_company_disposal_due_of_new_not_paid b today pr.1 pr.2
      (by rw [sweep_pairs_snd_overdue_retailer _ today pr hpr]; decide)) _

theorem updateOverdueDues_eq (db : DB) (today : Int) :
    updateOverdueDues db today = { db with
      consumer_disposal_dues := db.consumer_disposal_dues.map (fun d =>
        if d.status = DueStatus.pending ∧ d.due_date < today then
          { d with status := DueStatus.overdue } else d),
      business_disposal_dues := db.business_disposal_dues.map (fun d =>
        if d.status = DueStatus.pending ∧ d.due_date < today then
          { d with status := DueStatus.overdue } else d),
      retailer_disposal_dues := db.retailer_disposal_dues.map (fun d =>
        if d.status = DueStatus.pending ∧ d.due_date < today then
          { d with status := DueStatus.overdue } else d),
      company_disposal_dues := db.company_disposal_dues.map (fun d =>
        if d.status = DueStatus.pending ∧ d.due_date < today then
          { d with status := DueStatus.overdue } else d) } := by
  unfold updateOverdueDues sweepCompanyDues
  rw [sweepConsumerDues_eq, sweepBusinessDues_eq, sweepRetailerDues_eq]

theorem map_overdue_idem_consumer (today : Int) (l : List ConsumerDisposalDue) :
    ((l.map (fun d => if d.status = DueStatus.pending ∧ d.due_date < today then
        { d with status := DueStatus.overdue } else d)).map
      (fun d => if d.status = DueStatus.pending ∧ d.due_date < today then
        { d with status := DueStatus.overdue } else d))
    = l.map (fun d => if d.status = DueStatus.pending ∧ d.due_date < today then
        { d with status := DueStatus.overdue } else d) := by
  rw [List.map_map]
  refine List.map_congr_left ?_
  intro d _
  simp only [Function.comp_apply]
  by_cases hx : d.status = DueStatus.pending ∧ d.due_date < today
  · rw [if_pos hx, if_neg (by simp)]
  · rw [if_neg hx, if_neg hx]

theorem map_overdue_idem_business (today : Int) (l : List BusinessDisposalDue) :
    ((l.map (fun d => if d.status = DueStatus.pending ∧ d.due_date < today then
        { d with status := DueStatus.overdue } else d)).map
      (fun d => if d.status = DueStatus.pending ∧ d.due_date < today then
        { d with status := DueStatus.overdue } else d))
    = l.map (fun d => if d.status = DueStatus.pending ∧ d.due_date < today then
        { d with status := DueStatus.overdue } else d) := by
  rw [List.map_map]
  refine List.map_congr_left ?_
  intro d _
  simp only [Function.comp_apply]
  by_cases hx : d.status = DueStatus.pending ∧ d.due_date < today
  · rw [if_pos hx, if_neg (by simp)]
  · rw [if_neg hx, if_neg hx]

theorem map_overdue_idem_retailer (today : Int) (l : List RetailerDisposalDue) :
    ((l.map (fun d => if d.status = DueStatus.pending ∧ d.due_date < today then
        { d with status := DueStatus.overdue } else d)).map
      (fun d => if d.status = DueStatus.pending ∧ d.due_date < today then
        { d with status := DueStatus.overdue } else d))
    = l.map (fun d => if d.status = DueStatus.pending ∧ d.due_date < today then
        { d with status := DueStatus.overdue } else d) := by
  rw [List.map_map]
  refine List.map_congr_left ?_
  intro d _
  simp only [Function.comp_apply]
  by_cases hx : d.status = DueStatus.pending ∧ d.due_date < today
  · rw [if_pos hx, if_neg (by simp)]
  · rw [if_neg hx, if_neg hx]

theorem map_overdue_idem_company (today : Int) (l : List CompanyDisposalDue) :
    ((l.map (fun d => if d.status = DueStatus.pending ∧ d.due_date < today then
        { d with status := DueStatus.overdue } else d)).map
      (fun d => if d.status = DueStatus.pending ∧ d.due_date < today then
        { d with status := DueStatus.overdue } else d))
    = l.map (fun d => if d.status = DueStatus.pending ∧ d.due_date < today then
        { d with status := DueStatus.overdue } else d) := by
  rw [List.map_map]
  refine List.map_congr_left ?_
  intro d _
  simp only [Function.comp_apply]
  by_cases hx : d.status = DueStatus.pending ∧ d.due_date < today
  · rw [if_pos hx, if_neg (by simp)]
  · rw [if_neg hx, if_neg hx]

/-- Claim C7: the overdue sweep is idempotent — running updateOverdueDues
twice with the same date gives exactly the state of running it once — and
cascade-free: it never changes the number of dues at any tier, and more
generally firing any cascade trigger with a row whose new status is
overdue (rather than paid) creates nothing. -/
theorem claim_C7_sweep (db : DB) (today : Int) :
    updateOverdueDues (updateOverdueDues db today) today = updateOverdueDues db today ∧
    (updateOverdueDues db today).consumer_disposal_dues.length
        = db.consumer_disposal_dues.length ∧
    (updateOverdueDues db today).business_disposal_dues.length
        = db.business_disposal_dues.length ∧
    (updateOverdueDues db today).retailer_disposal_dues.length
        = db.retailer_disposal_dues.length ∧
    (updateOverdueDues db today).company_disposal_dues.length
        = db.company_disposal_dues.length ∧
    (∀ oldRow newRow : ConsumerDisposalDue, newRow.status = DueStatus.overdue →
      create_business_disposal_due db today oldRow newRow = db) ∧
    (∀ oldRow newRow : BusinessDisposalDue, newRow.status = DueStatus.overdue →
      create_retailer_disposal_due db today oldRow newRow = (db, none)) ∧
    (∀ oldRow newRow : RetailerDisposalDue, newRow.status = DueStatus.overdue →
      create_company_disposal_due db today oldRow newRow = db) := by
  refine ⟨?_, ?_, ?_, ?_, ?_, ?_, ?_, ?_⟩
  · rw [updateOverdueDues_eq, updateOverdueDues_eq]
    dsimp only
    rw [map_overdue_idem_consumer, map_overdue_idem_business, map_overdue_idem_retailer,
      map_overdue_idem_company]
  · rw [updateOverdueDues_eq]; dsimp only; rw [List.length_map]
  · rw [updateOverdueDues_eq]; dsimp only; rw [List.length_map]
  · rw [updateOverdueDues_eq]; dsimp only; rw [List.length_map]
  · rw [updateOverdueDues_eq]; dsimp only; rw [List.length_map]
  · intro oldRow newRow h
    exact create_business_disposal_due_of_new_not_paid db today oldRow newRow
      (by rw [h]; decide)
  · intro oldRow newRow h
    exact create_retailer_disposal_due_of_new_not_paid db today oldRow newRow
      (by rw [h]; decide)
  · intro oldRow newRow h
    exact create_company_disposal_due_of_new_not_paid db today oldRow newRow
      (by rw [h]; decide)

/-- Witness database for claim C7: one pending, already-due obligation at
every tier (due_date 3, swept at date 10). -/
def exDbC7 : DB :=
  { emptyDB with
    consumer_disposal_dues := [⟨1, 7, 11, 20, 3, DueStatus.pending⟩],
    business_disposal_dues := [⟨2, 8, some 1, 20, 3, DueStatus.pending⟩],
    retailer_disposal_dues :=
      [⟨3, 9, some 2, 20, 3, DueStatus.pending, RetailerSourceType.business_chain⟩],
    company_disposal_dues :=
      [⟨4, 10, some 3, 20, 3, DueStatus.pending, CompanySourceType.retailer_chain⟩],
    nextId := 5 }

/-- Witness for claim C7 at a concrete database. -/
theorem claim_C7_witness :
    updateOverdueDues (updateOverdueDues exDbC7 10) 10 = updateOverdueDues exDbC7 10 ∧
    create_business_disposal_due exDbC7 10 ⟨1, 7, 11, 20, 3, DueStatus.pending⟩
        ⟨1, 7, 11, 20, 3, DueStatus.overdue⟩ = exDbC7 :=
  ⟨(claim_C7_sweep exDbC7 10).1,
   (claim_C7_sweep exDbC7 10).2.2.2.2.2.1 ⟨1, 7, 11, 20, 3, DueStatus.pending⟩
     ⟨1, 7, 11, 20, 3, DueStatus.overdue⟩ rfl⟩

/-! ## Claim C8 -/

theorem filterMap_pay_business_eq (l : List BusinessDisposalDue) (i : Nat) :
    l.filterMap (fun d =>
      if d.id == i then some (d, { d with status := DueStatus.paid }) else none)
    = (l.filter (fun d => d.id == i)).map
        (fun d => (d, { d with status := DueStatus.paid })) := by
  induction l with
  | nil => rfl
  | cons x xs ih =>
    by_cases hx : x.id = i
    · simp [List.filterMap_cons, List.filter_cons, hx]
      simpa using ih
    · simp [List.filterMap_cons, List.filter_cons, hx]
      simpa using ih

theorem map_marks_paid_business (l : List BusinessDisposalDue) (i : Nat) :
    ∀ d ∈ l.map (fun d => if d.id == i then { d with status := DueStatus.paid } else d),
      d.id = i → d.status = DueStatus.paid := by
  intro d hd hdi
  obtain ⟨a, ha, rfl⟩ := List.mem_map.mp hd
  by_cases hx : (a.id == i) = true
  · rw [if_pos hx]
  · rw [if_neg hx] at hdi
    exact absurd (beq_iff_eq.mpr hdi) hx

/-- Claim C8: settling a business due whose business appears in no
retailer's registered_businesses array and has no historical inventory
purchase still marks the due paid, creates no retailer due, returns plain
success (no exception), and records the unresolved-party outcome as the
WARNING notice noRetailerFound — a value distinguishable from the
createdRetailerDue notice of a successful cascade. -/
theorem claim_C8_unresolved_party (db : DB) (today : Int) (bid : Nat)
    (b : BusinessDisposalDue)
    (hfilter : db.business_disposal_dues.filter (fun d => d.id == bid) = [b])
    (hnp : b.status ≠ DueStatus.paid)
    (hnoreg : ∀ r ∈ db.retailers, b.business_id ∉ r.registered_businesses)
    (hnotxn : ∀ it ∈ db.inventory_transactions, it.business_id ≠ b.business_id) :
    (∀ d ∈ (payBusinessDisposalDue db today bid).1.business_disposal_dues,
      d.id = bid → d.status = DueStatus.paid) ∧
    (payBusinessDisposalDue db today bid).1.retailer_disposal_dues
      = db.retailer_disposal_dues ∧
    (payBusinessDisposalDue db today bid).2.1
      = [some (RetailerNotice.noRetailerFound b.business_id)] ∧
    (payBusinessDisposalDue db today bid).2.2 = true ∧
    (∀ rid, RetailerNotice.noRetailerFound b.business_id
      ≠ RetailerNotice.createdRetailerDue rid) := by
  have hpairs : db.business_disposal_dues.filterMap (fun d =>
      if d.id == bid then some (d, { d with status := DueStatus.paid }) else none)
    = [(b, { b with status := DueStatus.paid })] := by
    rw [filterMap_pay_business_eq, hfilter]; rfl
  have hlook1 : findRetailerByRegistered
      { db with business_disposal_dues := db.business_disposal_dues.map (fun d =>
          if d.id == bid then { d with status := DueStatus.paid } else d) }
      b.business_id = none := by
    unfold findRetailerByRegistered
    rw [List.find?_eq_none.mpr (fun r hr => by simpa using hnoreg r hr)]
    rfl
  have hlook2 : findRetailerByInventoryTxns
      { db with business_disposal_dues := db.business_disposal_dues.map (fun d =>
          if d.id == bid then { d with status := DueStatus.paid } else d) }
      b.business_id = none := by
    unfold findRetailerByInventoryTxns
    rw [List.find?_eq_none.mpr (fun it hit => by simpa using hnotxn it hit)]
  have hstep : create_retailer_disposal_due
      { db with business_disposal_dues := db.business_disposal_dues.map (fun d =>
          if d.id == bid then { d with status := DueStatus.paid } else d) }
      today b { b with status := DueStatus.paid }
      = ({ db with business_disposal_dues := db.business_disposal_dues.map (fun d =>
            if d.id == bid then { d with status := DueStatus.paid } else d) },
         some (RetailerNotice.noRetailerFound b.business_id)) := by
    unfold create_retailer_disposal_due
    rw [if_pos ⟨rfl, hnp⟩]
    dsimp only
    rw [hlook1, hlook2]
  have hpay : payBusinessDisposalDue db today bid
      = ({ db with business_disposal_dues := db.business_disposal_dues.map (fun d =>
            if d.id == bid then { d with status := DueStatus.paid } else d) },
         [some (RetailerNotice.noRetailerFound b.business_id)], true) := by
    simp only [payBusinessDisposalDue]
    rw [hpairs]
    simp only [List.foldl_cons, List.foldl_nil]
    rw [hstep]
    rfl
  refine ⟨?_, ?_, ?_, ?_, ?_⟩
  · rw [hpay]
    exact map_marks_paid_business db.business_disposal_dues bid
  · rw [hpay]
  · rw [hpay]
  · rw [hpay]
  · intro rid h
    exact RetailerNotice.noConfusion h

/-- Witness database for claim C8: a pending business due (id 2, business
8), one retailer with an empty registered_businesses array, and no
inventory transactions. -/
def exDbC8 : DB :=
  { emptyDB with
    business_disposal_dues := [⟨2, 8, some 1, 20, 100, DueStatus.pending⟩],
    retailers := [⟨9, 30, 0, [], 0, 0⟩],
    nextId := 50 }

/-- Witness for claim C8 at a concrete database. -/
theorem claim_C8_witness :
    (∀ d ∈ (payBusinessDisposalDue exDbC8 0 2).1.business_disposal_dues,
      d.id = 2 → d.status = DueStatus.paid) ∧
    (payBusinessDisposalDue exDbC8 0 2).1.retailer_disposal_dues
      = exDbC8.retailer_disposal_dues ∧
    (payBusinessDisposalDue exDbC8 0 2).2.1
      = [some (RetailerNotice.noRetailerFound 8)] ∧
    (payBusinessDisposalDue exDbC8 0 2).2.2 = true ∧
    (∀ rid, RetailerNotice.noRetailerFound 8
      ≠ RetailerNotice.createdRetailerDue rid) :=
  claim_C8_unresolved_party exDbC8 0 2 ⟨2, 8, some 1, 20, 100, DueStatus.pending⟩
    (by decide) (by decide) (by decide) (by decide)

/-! ## Claims C9 and C10: helpers -/

theorem find?_eq_of_filter_single {α : Type} (p : α → Bool) (l : List α) (a : α)
    (h : l.filter p = [a]) : l.find? p = some a := by
  induction l with
  | nil => simp at h
  | cons x xs ih =>
    by_cases hx : p x
    · rw [List.filter_cons_of_pos hx] at h
      injection h with h1 h2
      rw [List.find?_cons_of_pos _ hx, h1]
    · rw [List.filter_cons_of_neg hx] at h
      rw [List.find?_cons_of_neg _ hx]
      exact ih h

theorem filter_map_update_inventory (l : List RetailerInventory) (i : Nat)
    (newQuantity now : Int) :
    ((l.map (fun x => if x.id == i then
        { x with quantity := newQuantity, updated_at := now } else x)).filter
      (fun x => x.id == i))
    = (l.filter (fun x => x.id == i)).map
        (fun x => { x with quantity := newQuantity, updated_at := now }) := by
  induction l with
  | nil => rfl
  | cons x xs ih =>
    by_cases hx : x.id = i
    · simp [List.filter_cons, hx]
      simpa using ih
    · simp [List.filter_cons, hx]
      simpa using ih

theorem mem_map_update_inventory (l : List RetailerInventory) (i : Nat)
    (newQuantity now : Int) :
    ∀ y ∈ l.map (fun x => if x.id == i then
        { x with quantity := newQuantity, updated_at := now } else x),
      y.id ≠ i → y ∈ l := by
  intro y hy hne
  obtain ⟨x, hx, rfl⟩ := List.mem_map.mp hy
  by_cases h : x.id = i
  · rw [if_pos (beq_iff_eq.mpr h)] at hne ⊢
    exact absurd h hne
  · rw [if_neg (by simpa using h)]
    exact hx

theorem filter_map_update_retailer (l : List Retailer) (i bid : Nat) :
    ((l.map (fun x => if x.id == i then
        { x with registered_businesses := x.registered_businesses ++ [bid] } else x)).filter
      (fun x => x.id == i))
    = (l.filter (fun x => x.id == i)).map
        (fun x => { x with registered_businesses := x.registered_businesses ++ [bid] }) := by
  induction l with
  | nil => rfl
  | cons x xs ih =>
    by_cases hx : x.id = i
    · simp [List.filter_cons, hx]
      simpa using ih
    · simp [List.filter_cons, hx]
      simpa using ih

theorem mem_map_update_retailer (l : List Retailer) (i bid : Nat) :
    ∀ y ∈ l.map (fun x => if x.id == i then
        { x with registered_businesses := x.registered_businesses ++ [bid] } else x),
      y.id ≠ i → y ∈ l := by
  intro y hy hne
  obtain ⟨x, hx, rfl⟩ := List.mem_map.mp hy
  by_cases h : x.id = i
  · rw [if_pos (beq_iff_eq.mpr h)] at hne ⊢
    exact absurd h hne
  · rw [if_neg (by simpa using h)]
    exact hx

/-! ## Claim C9 -/

/-- Claim C9 (amended): on success, updateInventoryAfterTransaction
writes the new quantity and stamps updated_at on the matching row, but it
does NOT recompute the status column: the stored status (and every other
column) keeps its prior value, even when the new quantity is 0. -/
theorem claim_C9_no_status_recompute (db : DB) (now : Int) (inventoryId : Nat)
    (quantity : Int) (transactionType : TransactionType) (item : RetailerInventory)
    (hfilter : db.retailer_inventory.filter (fun i => i.id == inventoryId) = [item])
    (hnn : 0 ≤ newQuantityFor transactionType item.quantity quantity) :
    ∃ db2, updateInventoryAfterTransaction db now inventoryId quantity transactionType
        = (db2, Except.ok true) ∧
      db2.retailer_inventory.filter (fun i => i.id == inventoryId)
        = [{ item with
             quantity := newQuantityFor transactionType item.quantity quantity,
             updated_at := now }] ∧
      (∀ i ∈ db2.retailer_inventory, i.id ≠ inventoryId → i ∈ db.retailer_inventory) ∧
      db2.consumer_disposal_dues = db.consumer_disposal_dues := by
  have hfind := find?_eq_of_filter_single _ _ _ hfilter
  refine ⟨{ db with retailer_inventory := db.retailer_inventory.map (fun i =>
      if i.id == inventoryId then
        { i with
          quantity := newQuantityFor transactionType item.quantity quantity,
          updated_at := now }
      else i) }, ?_, ?_, ?_, rfl⟩
  · simp only [updateInventoryAfterTransaction, hfind]
    rw [if_neg (by omega)]
  · dsimp only
    rw [filter_map_update_inventory, hfilter]
    rfl
  · exact mem_map_update_inventory _ _ _ _

/-- Inventory row for claim C9: id 1, quantity 5, status available. -/
def exItemC9 : RetailerInventory :=
  ⟨1, some 5, 2, 5, 10, ItemStatus.available, 100, 1, 100, 0⟩

/-- Database for claim C9: one inventory row (id 1) with quantity 5 and
status available. -/
def exDbC9 : DB :=
  { emptyDB with
    retailer_inventory := [exItemC9],
    nextId := 10 }

/-- Claim C9 counterexample: a purchase of the full stock (5 of 5)
succeeds and leaves the stored status at available although the new
quantity is 0 and getItemStatus 0 = out_of_stock — the operation did not
recompute the status from the new quantity as the claim states. -/
theorem claim_C9_counterexample :
    ((updateInventoryAfterTransaction exDbC9 7 1 5
        TransactionType.purchase).1.retailer_inventory.map
      (fun i => (i.quantity, i.status)) = [(0, ItemStatus.available)]) ∧
    (updateInventoryAfterTransaction exDbC9 7 1 5 TransactionType.purchase).2
      = Except.ok true ∧
    getItemStatus 0 = ItemStatus.out_of_stock ∧
    ItemStatus.available ≠ ItemStatus.out_of_stock :=
  ⟨by decide, rfl, rfl, by decide⟩

/-- Witness for claim C9 (amended) at a concrete database. -/
theorem claim_C9_witness :
    ∃ db2, updateInventoryAfterTransaction exDbC9 7 1 5 TransactionType.purchase
        = (db2, Except.ok true) ∧
      db2.retailer_inventory.filter (fun i => i.id == 1)
        = [{ exItemC9 with
             quantity := newQuantityFor TransactionType.purchase exItemC9.quantity 5,
             updated_at := 7 }] ∧
      (∀ i ∈ db2.retailer_inventory, i.id ≠ 1 → i ∈ exDbC9.retailer_inventory) ∧
      db2.consumer_disposal_dues = exDbC9.consumer_disposal_dues :=
  claim_C9_no_status_recompute exDbC9 7 1 5 TransactionType.purchase exItemC9
    (by decide) (by decide)

/-! ## Claim C10 -/

/-- Claim C10: createCompleteDisposalDueFlow, besides inserting the root
consumer due, mutates only the registered_businesses array of the target
retailer row: the business id is appended when absent (and the array kept
as is when present), every other column of that row and every other
retailer row is unchanged, and afterwards the business-to-retailer
party-resolution lookup over registered_businesses succeeds. -/
theorem claim_C10_registers_business (db : DB)
    (consumerId transactionId businessId retailerId companyId : Nat)
    (amount dueDate : Int) (r : Retailer)
    (hfilter : db.retailers.filter (fun x => x.id == retailerId) = [r]) :
    ∃ db2 cid,
      createCompleteDisposalDueFlow db consumerId transactionId businessId retailerId
        companyId amount dueDate = Except.ok (db2, cid) ∧
      db2.consumer_disposal_dues = db.consumer_disposal_dues ++
        [⟨db.nextId, consumerId, transactionId, amount, dueDate, DueStatus.pending⟩] ∧
      db2.retailers.filter (fun x => x.id == retailerId)
        = [{ r with registered_businesses :=
            if businessId ∈ r.registered_businesses then r.registered_businesses
            else r.registered_businesses ++ [businessId] }] ∧
      (∀ x ∈ db2.retailers, x.id ≠ retailerId → x ∈ db.retailers) ∧
      (findRetailerByRegistered db2 businessId).isSome = true := by
  have hfind : db.retailers.find? (fun x => x.id == retailerId) = some r :=
    find?_eq_of_filter_single _ _ _ hfilter
  have hrmem0 : r ∈ db.retailers.filter (fun x => x.id == retailerId) := by
    rw [hfilter]; exact List.mem_singleton.mpr rfl
  have hrmem : r ∈ db.retailers := (List.mem_filter.mp hrmem0).1
  have hrid : (r.id == retailerId) = true := (List.mem_filter.mp hrmem0).2
  by_cases hm : businessId ∈ r.registered_businesses
  · refine ⟨{ db with
        consumer_disposal_dues := db.consumer_disposal_dues ++
          [⟨db.nextId, consumerId, transactionId, amount, dueDate, DueStatus.pending⟩],
        nextId := db.nextId + 1 }, db.nextId, ?_, rfl, ?_, ?_, ?_⟩
    · simp only [createCompleteDisposalDueFlow, createConsumerDisposalDue,
        ensureBusinessRetailerRelationship]
      rw [hfind]
      dsimp only
      rw [if_pos hm]
      rfl
    · dsimp only
      rw [hfilter, if_pos hm]
    · intro x hx hne
      exact hx
    · unfold findRetailerByRegistered
      dsimp only
      have hs : ((db.retailers.find?
          (fun r => r.registered_businesses.contains businessId)).isSome) = true :=
        List.find?_isSome.mpr ⟨r, hrmem, by simpa using hm⟩
      obtain ⟨a, ha⟩ := Option.isSome_iff_exists.mp hs
      rw [ha]
      rfl
  · refine ⟨{ db with
        consumer_disposal_dues := db.consumer_disposal_dues ++
          [⟨db.nextId, consumerId, transactionId, amount, dueDate, DueStatus.pending⟩],
        nextId := db.nextId + 1,
        retailers := db.retailers.map (fun r2 =>
          if r2.id == retailerId then
            { r2 with registered_businesses := r2.registered_businesses ++ [businessId] }
          else r2) }, db.nextId, ?_, rfl, ?_, ?_, ?_⟩
    · simp only [createCompleteDisposalDueFlow, createConsumerDisposalDue,
        ensureBusinessRetailerRelationship]
      rw [hfind]
      dsimp only
      rw [if_neg hm]
      rfl
    · dsimp only
      rw [filter_map_update_retailer, hfilter, if_neg hm]
      rfl
    · exact mem_map_update_retailer _ _ _
    · unfold findRetailerByRegistered
      dsimp only
      have hs : (((db.retailers.map (fun r2 =>
          if r2.id == retailerId then
            { r2 with registered_businesses := r2.registered_businesses ++ [businessId] }
          else r2)).find?
          (fun r => r.registered_businesses.contains businessId)).isSome) = true :=
        List.find?_isSome.mpr
          ⟨{ r with registered_businesses := r.registered_businesses ++ [businessId] },
           List.mem_map.mpr ⟨r, hrmem, by simp [hrid]⟩, by simp⟩
      obtain ⟨a, ha⟩ := Option.isSome_iff_exists.mp hs
      rw [ha]
      rfl

/-- Retailer row for claim C10: id 1, empty registered_businesses. -/
def exRetC10 : Retailer := ⟨1, 30, 0, [], 0, 0⟩

/-- Witness database for claim C10: one retailer (id 1) with an empty
registered_businesses array. -/
def exDbC10 : DB :=
  { emptyDB with
    retailers := [exRetC10],
    nextId := 40 }

/-- Witness for claim C10 at a concrete database. -/
theorem claim_C10_witness :
    ∃ db2 cid,
      createCompleteDisposalDueFlow exDbC10 3 11 2 1 6 20 30 = Except.ok (db2, cid) ∧
      db2.consumer_disposal_dues = exDbC10.consumer_disposal_dues ++
        [⟨exDbC10.nextId, 3, 11, 20, 30, DueStatus.pending⟩] ∧
      db2.retailers.filter (fun x => x.id == 1)
        = [{ exRetC10 with registered_businesses :=
            if 2 ∈ exRetC10.registered_businesses then exRetC10.registered_businesses
            else exRetC10.registered_businesses ++ [2] }] ∧
      (∀ x ∈ db2.retailers, x.id ≠ 1 → x ∈ exDbC10.retailers) ∧
      (findRetailerByRegistered db2 2).isSome = true :=
  claim_C10_registers_business exDbC10 3 11 2 1 6 20 30 exRetC10 (by decide)

end EcoTrace
